import Mathlib

/-!
Verification of the Christmas-Scam-LeoClub interactive presentation.

A shallow embedding, in Lean 4, of the reusable logic of the repository:

* the counter client (`useScamStats` in `src/hooks/useScamStats.ts`, also
  inlined in `MagicalSurprise.tsx`): `incrementVisit`, `incrementVictim`,
  `fetchStats`, each a `fetch` + JSON-parse wrapped in `try/catch`, updating
  the displayed `visits`/`victims` only when `data.count` is truthy;
* the gift-box interaction logic (`GiftBox.tsx`): `handleClick` guarded by
  `isDropped`, and the open-effect guarded by `hasPlayedRef` so the opening
  sound and the `onOpen` callback run at most once per component lifetime;
* the ending cinematic timeline (`EndingScene.tsx`): a 0.1-second tick
  advancing `currentTime`, audio triggers fired when the sampled clock is
  within 0.05 s of a trigger offset, scene windows selected by
  `isTime(start, end)`, and the transition to the terminal `finished`
  status once `currentTime >= 92`.

JavaScript numbers are modelled as exact rationals (`ℚ`): every literal in
the relevant code is an exact multiple of 0.1, the tick step is 0.1 and the
trigger tolerance 0.05, so no behaviour of interest depends on binary
floating-point rounding.  Asynchronous `fetch`/JSON outcomes are modelled
as an explicit outcome value handed to the pure transition function, and a
rejected promise inside a `try` block as the `Except.error` branch of the
try-block result.
-/

/-! ## Counter client (`useScamStats`) -/

/-- A JavaScript value held by the parsed `data.count` field.  `res.json()`
is untyped (`any`), so besides a number the field can be absent or `null`
(`undef`), a string, or some other object (`obj`).  Remaining truthy
values (arrays, `true`) behave like `obj` and remaining falsy ones
(`false`, `NaN`) like `undef`: the guard `if (data.count)` inspects only
truthiness and a falsy count is never stored, so the collapse preserves
behaviour.  Numeric counts are modelled as integers, which is what the
counter API returns. -/
inductive JSValue where
  | undef : JSValue
  | num : Int → JSValue
  | str : String → JSValue
  | obj : JSValue
deriving DecidableEq

/-- Whether a count value is an actual number. -/
def isNumericCount : JSValue → Bool
  | .num _ => true
  | _ => false

/-- Outcome of one `fetch` + `res.json()` round trip.  `reject` covers a
network failure of `fetch` or a JSON-parse failure of `res.json()` (both
throw inside the `try` block); `success` carries the `count` field of the
parsed body. -/
inductive FetchOutcome where
  | reject : FetchOutcome
  | success : JSValue → FetchOutcome

/-- Displayed counter state of the hook, initialised by
`useState<number>(0)`.  The fields hold `JSValue`s because the runtime
does not enforce the TypeScript annotation: `setVisits(data.count)` stores
whatever truthy value the response carried. -/
structure ScamStats where
  visits : JSValue
  victims : JSValue
deriving DecidableEq

/-- JavaScript truthiness of `data.count` as used in
`if (data.count) setVisits(data.count)`: absent/`null` is falsy, a number
is falsy exactly when it is 0, a string exactly when it is empty, and any
other object is truthy. -/
def jsTruthy : JSValue → Bool
  | .undef => false
  | .num n => decide (n ≠ 0)
  | .str s => decide (s ≠ "")
  | .obj => true

/-- The guarded update `if (data.count) setX(data.count)`: overwrite the
old value with the count exactly when the count is truthy. -/
def applyCountUpdate (count old : JSValue) : JSValue :=
  if jsTruthy count then count else old

/-- Body of the `try` block of `incrementVisit`: `fetch` + `res.json()` may
throw (`error`), otherwise the visits value is updated iff `data.count` is
truthy. -/
def incrementVisitTry (r : FetchOutcome) (s : ScamStats) : Except Unit ScamStats :=
  match r with
  | .reject => .error ()
  | .success count => .ok { s with visits := applyCountUpdate count s.visits }

/-- Function `incrementVisit`: the `try` block with its `catch (e)` handler, which
logs and swallows the error, resolving with the state unchanged. -/
def incrementVisit (r : FetchOutcome) (s : ScamStats) : ScamStats :=
  match incrementVisitTry r s with
  | .ok s2 => s2
  | .error _ => s

/-- Body of the `try` block of `incrementVictim`. -/
def incrementVictimTry (r : FetchOutcome) (s : ScamStats) : Except Unit ScamStats :=
  match r with
  | .reject => .error ()
  | .success count => .ok { s with victims := applyCountUpdate count s.victims }

/-- Function `incrementVictim`: `try` block plus swallowing `catch`. -/
def incrementVictim (r : FetchOutcome) (s : ScamStats) : ScamStats :=
  match incrementVictimTry r s with
  | .ok s2 => s2
  | .error _ => s

/-- Body of the `try` block of `fetchStats`: `Promise.all` of the two
fetches followed by the two `res.json()` awaits — if either outcome is a
rejection the block throws before any `set` runs; otherwise both guarded
updates run. -/
def fetchStatsTry (rVisits rVictims : FetchOutcome) (s : ScamStats) :
    Except Unit ScamStats :=
  match rVisits, rVictims with
  | .success visitCount, .success victimCount =>
      .ok { visits := applyCountUpdate visitCount s.visits,
            victims := applyCountUpdate victimCount s.victims }
  | _, _ => .error ()

/-- Function `fetchStats`: `try` block plus swallowing `catch`. -/
def fetchStats (rVisits rVictims : FetchOutcome) (s : ScamStats) : ScamStats :=
  match fetchStatsTry rVisits rVictims s with
  | .ok s2 => s2
  | .error _ => s

/-! ## Gift box (`GiftBox.tsx`) -/

/-- The `variant` prop of `GiftBox`: `'open'` (the default) or `'shake'`.
`open` is a Lean keyword, so the `'open'` variant is named `openGift`. -/
inductive GiftVariant where
  | openGift : GiftVariant
  | shakeGift : GiftVariant
deriving DecidableEq

/-- Local state of one `GiftBox`: the `isOpen` and `isShaking` booleans
(both `useState(false)`). -/
structure GiftBoxState where
  isOpen : Bool
  isShaking : Bool
deriving DecidableEq

/-- Function `handleClick`: returns immediately when `!isDropped`; for the `'open'`
variant sets `isOpen`; for the `'shake'` variant calls `triggerShake`,
which sets `isShaking` and starts the audio.  The second component records
whether an audio playback was started by the click itself. -/
def handleClick (isDropped : Bool) (variant : GiftVariant) (s : GiftBoxState) :
    GiftBoxState × Bool :=
  if !isDropped then (s, false)
  else
    match variant with
    | .openGift => ({ s with isOpen := true }, false)
    | .shakeGift => ({ s with isShaking := true }, true)

/-- Line 131 of `GiftBox.tsx`: `if (!isDropped) return null` — the box
renders content exactly when `isDropped` holds. -/
def rendersContent (isDropped : Bool) : Bool := isDropped

/-- One evaluation of the opening effect (`useEffect` over
`[isOpen, onOpen, variant]`): when the variant is `'open'`, `isOpen` holds
and `hasPlayedRef.current` is still false, it sets `hasPlayedRef`, plays
the sound and invokes `onOpen`.  Returns the new `hasPlayed` flag and
whether the sound/`onOpen` action fired in this evaluation. -/
def openEffect (variant : GiftVariant) (isOpen hasPlayed : Bool) : Bool × Bool :=
  if variant = .openGift && isOpen && !hasPlayed then (true, true)
  else (hasPlayed, false)

/-- Total number of sound/`onOpen` firings over a whole component
lifetime: the effect is evaluated once per element of `samples` (the
`isOpen` value seen at that evaluation), threading `hasPlayedRef`. -/
def runOpenEffects (variant : GiftVariant) (samples : List Bool) (hasPlayed : Bool) :
    Nat :=
  match samples with
  | [] => 0
  | b :: rest =>
      let r := openEffect variant b hasPlayed
      (if r.2 then 1 else 0) + runOpenEffects variant rest r.1

/-- The main gift box in `App` passes no `variant` prop, so it uses the
default `'open'` (line 30 of `GiftBox.tsx`); its `onOpen` callback calls
`incrementVictim`. -/
def mainGiftVariant : GiftVariant := .openGift

/-! ### Counter-client lemmas and claim theorems -/

lemma runOpenEffects_played (samples : List Bool) :
    runOpenEffects .openGift samples true = 0 := by
  induction samples with
  | nil => rfl
  | cons b rest ih =>
      simp [runOpenEffects, openEffect, ih]

lemma runOpenEffects_eq (samples : List Bool) :
    runOpenEffects .openGift samples false = if true ∈ samples then 1 else 0 := by
  induction samples with
  | nil => simp [runOpenEffects]
  | cons b rest ih =>
      cases b with
      | true =>
          simp [runOpenEffects, openEffect, runOpenEffects_played]
      | false =>
          simp [runOpenEffects, openEffect, ih]

/-- Claim C6: every counter-client call whose fetch or JSON parse rejects
resolves without throwing to its caller (the functions are total, with the
`catch` handler mapping the try-block error to a normal result) and leaves
the displayed visits and victims values unchanged. -/
theorem counter_reject_fail_open :
    ∀ (s : ScamStats) (r : FetchOutcome),
      incrementVisit .reject s = s ∧
      incrementVictim .reject s = s ∧
      incrementVisitTry .reject s = .error () ∧
      incrementVictimTry .reject s = .error () ∧
      fetchStats .reject r s = s ∧
      fetchStats r .reject s = s := by
  intro s r
  refine ⟨rfl, rfl, rfl, rfl, rfl, ?_⟩
  cases r <;> rfl

lemma counter_update_falsy (s : ScamStats) (c : JSValue)
    (hc : jsTruthy c = false) :
    incrementVisit (.success c) s = s ∧
    incrementVictim (.success c) s = s ∧
    fetchStats (.success c) (.success c) s = s := by
  refine ⟨?_, ?_, ?_⟩ <;>
    simp [incrementVisit, incrementVictim, fetchStats,
      incrementVisitTry, incrementVictimTry, fetchStatsTry,
      applyCountUpdate, hc]

/-- Claim C7, counterexample: a response body whose `count` is the string
`"abc"` has no numeric `count` field, yet `if (data.count)` is truthy for
it, so the call overwrites the previously displayed value 42 with the
string — refuting that a missing or unusable count never overwrites the
last-known value. -/
theorem counter_truthy_string_overwrites :
    isNumericCount (.str "abc") = false ∧
    incrementVisit (.success (.str "abc"))
        { visits := .num 42, victims := .num 7 } =
      { visits := .str "abc", victims := .num 7 } ∧
    JSValue.str "abc" ≠ .num 42 := by
  refine ⟨rfl, ?_, ?_⟩
  · simp [incrementVisit, incrementVisitTry, applyCountUpdate, jsTruthy]
  · intro h
    exact JSValue.noConfusion h

/-- Claim C7, amended: a counter-client call that receives a response body
whose `count` field is falsy — absent or `null`, the number 0, or an empty
string — leaves the previously displayed value unchanged; the guard is the
JavaScript truthiness of `data.count`, not numeric validity, so a truthy
non-numeric count does overwrite the value. -/
theorem counter_falsy_count_noop :
    ∀ (s : ScamStats) (c : JSValue), jsTruthy c = false →
      incrementVisit (.success c) s = s ∧
      incrementVictim (.success c) s = s ∧
      fetchStats (.success c) (.success c) s = s := by
  intro s c hc
  exact counter_update_falsy s c hc

/-- Witness for the amended C7 theorem at the absent count and a concrete
state. -/
theorem counter_falsy_count_noop_wit :
    jsTruthy .undef = false ∧
    incrementVisit (.success .undef) { visits := .num 3, victims := .num 4 } =
      { visits := .num 3, victims := .num 4 } :=
  ⟨rfl,
   (counter_falsy_count_noop { visits := .num 3, victims := .num 4 } .undef rfl).1⟩

/-- Claim C8, counterexample: with a response carrying the truthy
non-numeric count `"abc"`, the displayed visits value changes (from the
number 42) to a value that is not a number at all — refuting that the
displayed values only ever change to a nonzero number. -/
theorem counter_nonnumeric_change_cex :
    (incrementVisit (.success (.str "abc"))
        { visits := .num 42, victims := .num 7 }).visits ≠
      ({ visits := .num 42, victims := .num 7 } : ScamStats).visits ∧
    isNumericCount
      (incrementVisit (.success (.str "abc"))
        { visits := .num 42, victims := .num 7 }).visits = false := by
  constructor
  · intro h
    exact JSValue.noConfusion h
  · rfl

/-- Claim C8, amended: a numeric `count` equal to 0 is falsy and does not
update the displayed value; every update the truthiness guard lets through
stores a truthy value, so a displayed value either keeps its previous
value or changes to a truthy one — whenever it changes to a number that
number is nonzero — though a truthy non-numeric count can change it to a
non-number. -/
theorem counter_zero_count_amended :
    (∀ s : ScamStats,
      incrementVisit (.success (.num 0)) s = s ∧
      incrementVictim (.success (.num 0)) s = s ∧
      fetchStats (.success (.num 0)) (.success (.num 0)) s = s) ∧
    (∀ (r : FetchOutcome) (s : ScamStats),
      ((incrementVisit r s).visits = s.visits ∨
        jsTruthy (incrementVisit r s).visits = true) ∧
      ((incrementVictim r s).victims = s.victims ∨
        jsTruthy (incrementVictim r s).victims = true)) ∧
    (∀ (rv rc : FetchOutcome) (s : ScamStats),
      ((fetchStats rv rc s).visits = s.visits ∨
        jsTruthy (fetchStats rv rc s).visits = true) ∧
      ((fetchStats rv rc s).victims = s.victims ∨
        jsTruthy (fetchStats rv rc s).victims = true)) ∧
    (∀ n : Int, jsTruthy (.num n) = true ↔ n ≠ 0) := by
  refine ⟨?_, ?_, ?_, ?_⟩
  · intro s
    exact counter_update_falsy s (.num 0) rfl
  · intro r s
    cases r with
    | reject => exact ⟨Or.inl rfl, Or.inl rfl⟩
    | success c =>
        by_cases h : jsTruthy c = true <;>
          constructor <;>
            simp [incrementVisit, incrementVictim, incrementVisitTry,
              incrementVictimTry, applyCountUpdate, h]
  · intro rv rc s
    cases rv with
    | reject => exact ⟨Or.inl rfl, Or.inl rfl⟩
    | success cv =>
        cases rc with
        | reject => exact ⟨Or.inl rfl, Or.inl rfl⟩
        | success cc =>
            constructor
            · by_cases h : jsTruthy cv = true <;>
                simp [fetchStats, fetchStatsTry, applyCountUpdate, h]
            · by_cases h : jsTruthy cc = true <;>
                simp [fetchStats, fetchStatsTry, applyCountUpdate, h]
  · intro n
    simp [jsTruthy]

/-- Claim C9: clicking a `GiftBox` whose `isDropped` prop is false leaves
its state unchanged and starts no audio (`handleClick` returns
immediately), and an undropped box renders nothing. -/
theorem giftbox_undropped_click_noop :
    (∀ (variant : GiftVariant) (s : GiftBoxState),
      handleClick false variant s = (s, false)) ∧
    rendersContent false = false := by
  constructor
  · intro variant s
    simp [handleClick]
  · rfl

/-- Claim C10: for an `'open'`-variant `GiftBox` (in particular the main
gift box, whose `onOpen` calls `incrementVictim`), over any sequence of
opening-effect evaluations starting with `hasPlayedRef` false, the opening
sound / `onOpen` action fires at most once — exactly once as soon as some
evaluation sees `isOpen` true, and never otherwise. -/
theorem giftbox_open_fires_once :
    ∀ samples : List Bool,
      runOpenEffects mainGiftVariant samples false ≤ 1 ∧
      runOpenEffects mainGiftVariant samples false =
        if true ∈ samples then 1 else 0 := by
  intro samples
  have h := runOpenEffects_eq samples
  constructor
  · rw [show mainGiftVariant = .openGift from rfl, h]
    split <;> simp
  · rw [show mainGiftVariant = .openGift from rfl, h]

/-! ## Ending cinematic (`EndingScene.tsx`) -/

/-- The `status` state of `EndingScene`:
`useState<'idle' | 'playing' | 'finished' | 'sendoff' | 'sendoff2'>('idle')`. -/
inductive EStatus where
  | idle : EStatus
  | playing : EStatus
  | finished : EStatus
  | sendoff : EStatus
  | sendoff2 : EStatus
deriving DecidableEq

/-- The state of one ending-scene run: `status` and `currentTime` (the
clock, in seconds). -/
structure EState where
  status : EStatus
  clock : ℚ
deriving DecidableEq

/-- Function `startEnding` (lines 21-38): unconditionally `setStatus('playing')` and
`setCurrentTime(0)` — it does not consult the current state. -/
def startEnding (_s : EState) : EState :=
  { status := .playing, clock := 0 }

/-- Line 142: the "See The Truth" button that invokes `startEnding` is
rendered only when `status === 'idle'`. -/
def startButtonVisible (s : EState) : Bool := s.status == .idle

/-- The tolerance test used by every audio trigger in the timeline effect:
`Math.abs(currentTime - t) < 0.05`. -/
def fireCheck (currentTime t : ℚ) : Bool := decide (|currentTime - t| < 0.05)

/-- Offsets of the two glitch-audio `if` statements (lines 48-53):
`Math.abs(currentTime - 0.5) < 0.05` and `Math.abs(currentTime - 4.0) < 0.05`. -/
def glitchTimes : List ℚ := [0.5, 4.0]

/-- The `textRevealTimes` table (lines 57-81). -/
def textRevealTimes : List ℚ :=
  [0.1, 5.0,
   10.0, 10.5, 15.0, 15.5,
   20.0, 21.5, 26.0, 27.5,
   32.2, 33.5, 34.8, 36.0, 38.2, 39.5, 40.8, 42.0,
   44.0, 45.0, 50.0, 51.0,
   56.0, 57.5, 58.5, 61.0, 62.5, 63.5,
   66.0, 67.5, 71.0, 72.5,
   76.5, 78.5, 83.5, 85.5]

/-- First glitch trigger condition (line 48). -/
def glitchTrigger1 (currentTime : ℚ) : Bool := fireCheck currentTime 0.5

/-- Second glitch trigger condition (line 51). -/
def glitchTrigger2 (currentTime : ℚ) : Bool := fireCheck currentTime 4.0

/-- Text-reveal trigger condition (line 83):
`textRevealTimes.some(t => Math.abs(currentTime - t) < 0.05)`. -/
def textRevealTrigger (currentTime : ℚ) : Bool :=
  textRevealTimes.any (fun t => fireCheck currentTime t)

/-- One step of the rendered-state sequence while the timeline effect is
live.  From a `playing` render the next render is produced either by the
end-of-sequence check (`currentTime >= 92` sets `finished` and clears the
interval) or by the next 100 ms interval callback
(`setCurrentTime(prev => prev + 0.1)`).  Any other status leaves the state
untouched (the effect returns early and no interval runs). -/
def stepEnding (s : EState) : EState :=
  if s.status = .playing then
    if (92 : ℚ) ≤ s.clock then { status := .finished, clock := s.clock }
    else { status := .playing, clock := s.clock + 0.1 }
  else s

/-- The sequence of rendered `(status, currentTime)` pairs of one run,
starting from the render produced by `startEnding`. -/
def renderedState : ℕ → EState
  | 0 => startEnding { status := .idle, clock := 0 }
  | n + 1 => stepEnding (renderedState n)

/-- Whether the trigger with offset `t` fires at rendered state `n`: the
timeline effect body runs only while `status` is `'playing'` (line 41) and
fires the trigger when the sampled clock passes the tolerance test. -/
def firedAt (n : ℕ) (t : ℚ) : Bool :=
  (renderedState n).status == .playing && fireCheck (renderedState n).clock t

/-- The `isTime` helper (line 137):
`currentTime >= start && currentTime < end`. -/
def isTime (currentTime start stop : ℚ) : Bool :=
  decide (start ≤ currentTime) && decide (currentTime < stop)

/-- The sixteen non-terminal scene windows of the cinematic, exactly the
`isTime(start, end)` guards of lines 172-592. -/
def sceneWindows : List (ℚ × ℚ) :=
  [(0, 5), (5, 10), (10, 15), (15, 20), (20, 26), (26, 32), (32, 38),
   (38, 44), (44, 50), (50, 56), (56, 61), (61, 66), (66, 71), (71, 76),
   (76, 83), (83, 90)]

/-- Number of scene windows containing a given clock value. -/
def activeScenes (currentTime : ℚ) : ℕ :=
  sceneWindows.countP (fun w => isTime currentTime w.1 w.2)

/-- The window boundaries, in order. -/
def sceneBoundaries : List ℚ :=
  [0, 5, 10, 15, 20, 26, 32, 38, 44, 50, 56, 61, 66, 71, 76, 83, 90]

/-- Consecutive-pair windows of a boundary list. -/
def windowsOf : List ℚ → List (ℚ × ℚ)
  | a :: b :: rest => (a, b) :: windowsOf (b :: rest)
  | _ => []

/-- Decisecond values of all trigger offsets (glitch plus text reveals):
every offset in the effect is an exact multiple of 0.1 s. -/
def triggerDecis : List ℕ :=
  [5, 40,
   1, 50,
   100, 105, 150, 155,
   200, 215, 260, 275,
   322, 335, 348, 360, 382, 395, 408, 420,
   440, 450, 500, 510,
   560, 575, 585, 610, 625, 635,
   660, 675, 710, 725,
   765, 785, 835, 855]

/-! ### Timeline lemmas -/

lemma chain_le_getLastD :
    ∀ (bs : List ℚ) (b : ℚ), List.Chain (· < ·) b bs → b ≤ bs.getLastD b := by
  intro bs
  induction bs with
  | nil => intro b _; exact le_refl b
  | cons x xs ih =>
      intro b h
      rcases List.chain_cons.1 h with ⟨hbx, hx⟩
      rw [List.getLastD_cons]
      exact le_trans (le_of_lt hbx) (ih x hx)

lemma windowsOf_countP (c : ℚ) :
    ∀ (bs : List ℚ) (a : ℚ), List.Chain (· < ·) a bs →
      (windowsOf (a :: bs)).countP (fun w => isTime c w.1 w.2) =
        if a ≤ c ∧ c < bs.getLastD a then 1 else 0 := by
  intro bs
  induction bs with
  | nil =>
      intro a _
      rw [show windowsOf [a] = [] from rfl]
      rw [List.countP_nil, List.getLastD_nil]
      rw [if_neg (fun h => absurd (lt_of_le_of_lt h.1 h.2) (lt_irrefl a))]
  | cons b rest ih =>
      intro a h
      rcases List.chain_cons.1 h with ⟨hab, hrest⟩
      have hbL : b ≤ rest.getLastD b := chain_le_getLastD rest b hrest
      rw [show windowsOf (a :: b :: rest) = (a, b) :: windowsOf (b :: rest) from rfl]
      rw [List.countP_cons, ih b hrest, List.getLastD_cons]
      rcases lt_or_le c b with hcb | hbc
      · have h1 : ¬ (b ≤ c ∧ c < rest.getLastD b) := fun hh => absurd hcb (not_lt.2 hh.1)
        have hcL : c < rest.getLastD b := lt_of_lt_of_le hcb hbL
        rw [if_neg h1, zero_add]
        by_cases hac : a ≤ c
        · rw [if_pos (by simp [isTime, hac, hcb]), if_pos ⟨hac, hcL⟩]
        · rw [if_neg (by simp [isTime, hac]), if_neg (fun hh => hac hh.1)]
      · have hIT : ¬ ((fun w : ℚ × ℚ => isTime c w.1 w.2) (a, b) = true) := by
          simp [isTime, not_lt.2 hbc]
        have hac : a ≤ c := le_trans (le_of_lt hab) hbc
        rw [if_neg hIT, add_zero]
        by_cases hcL : c < rest.getLastD b
        · rw [if_pos ⟨hbc, hcL⟩, if_pos ⟨hac, hcL⟩]
        · rw [if_neg (fun hh => hcL hh.2), if_neg (fun hh => hcL hh.2)]

lemma activeScenes_eq (c : ℚ) :
    activeScenes c = if 0 ≤ c ∧ c < 90 then 1 else 0 := by
  have hchain : List.Chain (· < ·) (0 : ℚ)
      [5, 10, 15, 20, 26, 32, 38, 44, 50, 56, 61, 66, 71, 76, 83, 90] := by
    norm_num [List.chain_cons]
  have h := windowsOf_countP c
    [5, 10, 15, 20, 26, 32, 38, 44, 50, 56, 61, 66, 71, 76, 83, 90] 0 hchain
  rw [show (([5, 10, 15, 20, 26, 32, 38, 44, 50, 56, 61, 66, 71, 76, 83, 90] :
      List ℚ).getLastD 0) = 90 from rfl] at h
  rw [show activeScenes c = (windowsOf ((0 : ℚ) ::
      [5, 10, 15, 20, 26, 32, 38, 44, 50, 56, 61, 66, 71, 76, 83, 90])).countP
      (fun w => isTime c w.1 w.2) from rfl]
  exact h

lemma renderedState_eq (n : ℕ) :
    renderedState n =
      if n ≤ 920 then { status := .playing, clock := (n : ℚ) / 10 }
      else { status := .finished, clock := 92 } := by
  induction n with
  | zero =>
      rw [if_pos (by omega)]
      show startEnding { status := .idle, clock := 0 } = _
      rw [startEnding]
      norm_num
  | succ n ih =>
      rw [show renderedState (n + 1) = stepEnding (renderedState n) from rfl, ih]
      by_cases h : n ≤ 920
      · rw [if_pos h]
        by_cases h2 : n = 920
        · subst h2
          rw [if_neg (by omega : ¬ 920 + 1 ≤ 920)]
          rw [show ((920 : ℕ) : ℚ) / 10 = 92 by norm_num]
          rw [stepEnding]
          norm_num
        · have hlt : n < 920 := lt_of_le_of_ne h h2
          rw [if_pos (by omega : n + 1 ≤ 920)]
          have hnot : ¬ (92 : ℚ) ≤ (n : ℚ) / 10 := by
            rw [not_le, div_lt_iff₀ (by norm_num : (0 : ℚ) < 10)]
            have hq : (n : ℚ) < 920 := by exact_mod_cast hlt
            linarith
          rw [stepEnding]
          simp only [if_pos rfl]
          rw [if_neg hnot]
          have harith : (n : ℚ) / 10 + 0.1 = ((n + 1 : ℕ) : ℚ) / 10 := by
            push_cast
            norm_num
            ring
          simp [harith]
      · rw [if_neg h, if_neg (by omega : ¬ n + 1 ≤ 920)]
        rw [stepEnding]
        norm_num

lemma fireCheck_nat (n m : ℕ) :
    fireCheck ((n : ℚ) / 10) ((m : ℚ) / 10) = decide (n = m) := by
  rw [fireCheck, decide_eq_decide]
  rw [div_sub_div_same, abs_div, abs_of_pos (by norm_num : (0 : ℚ) < 10)]
  rw [div_lt_iff₀ (by norm_num : (0 : ℚ) < 10)]
  constructor
  · intro h
    by_contra hne
    have hz : (n : ℤ) - (m : ℤ) ≠ 0 := by omega
    have h1 : (1 : ℤ) ≤ |(n : ℤ) - (m : ℤ)| := Int.one_le_abs hz
    have h1q : (1 : ℚ) ≤ |(n : ℚ) - (m : ℚ)| := by
      have h2 : ((1 : ℤ) : ℚ) ≤ ((|(n : ℤ) - (m : ℤ)| : ℤ) : ℚ) := Int.cast_le.2 h1
      rw [Int.cast_abs] at h2
      push_cast at h2
      exact h2
    norm_num at h
    linarith
  · rintro rfl
    norm_num

lemma firedAt_eq (n m : ℕ) (hm : m ≤ 920) :
    firedAt n ((m : ℚ) / 10) = decide (n = m) := by
  rw [firedAt, renderedState_eq]
  by_cases h : n ≤ 920
  · rw [if_pos h]
    simp [fireCheck_nat n m]
  · rw [if_neg h]
    have hne : ¬ (n = m) := by omega
    simp [hne]

lemma trigger_table_decis :
    glitchTimes ++ textRevealTimes =
      triggerDecis.map (fun m : ℕ => (m : ℚ) / 10) := by
  norm_num [glitchTimes, textRevealTimes, triggerDecis]

lemma triggerDecis_le : ∀ m ∈ triggerDecis, m ≤ 920 := by decide

/-- Claim C1, counterexample: the clock value 91 lies in `[0, 92)` but no
scene window contains it (the windows stop at 90), while the run is still
`'playing'` there — refuting coverage of `[0, totalDuration)`. -/
theorem sceneWindows_gap_at_91 :
    activeScenes 91 = 0 ∧ (0 : ℚ) ≤ 91 ∧ (91 : ℚ) < 92 ∧
    renderedState 910 = { status := .playing, clock := 91 } := by
  refine ⟨?_, by norm_num, by norm_num, ?_⟩
  · rw [activeScenes_eq, if_neg (fun h => absurd h.2 (by norm_num))]
  · rw [renderedState_eq, if_pos (by omega)]
    norm_num [EState.mk.injEq]

/-- Claim C1, amended: the sixteen scene windows are contiguous,
non-overlapping and cover exactly `[0, 90)` — one window contains each
clock value in `[0, 90)`, none contains any value outside it (in
particular none of `[90, 92)`, where the run is still playing) — and one
step after the clock reaches 92 the run is in the terminal `finished`
state. -/
theorem sceneWindows_cover_amended :
    (∀ c : ℚ, 0 ≤ c → c < 90 → activeScenes c = 1) ∧
    (∀ c : ℚ, 90 ≤ c → activeScenes c = 0) ∧
    (∀ c : ℚ, c < 0 → activeScenes c = 0) ∧
    (∀ n : ℕ, 92 ≤ (renderedState n).clock →
      (renderedState (n + 1)).status = .finished) := by
  refine ⟨?_, ?_, ?_, ?_⟩
  · intro c h0 h90
    rw [activeScenes_eq, if_pos ⟨h0, h90⟩]
  · intro c h
    rw [activeScenes_eq, if_neg (fun hh => absurd hh.2 (not_lt.2 h))]
  · intro c h
    rw [activeScenes_eq, if_neg (fun hh => absurd hh.1 (not_le.2 h))]
  · intro n h
    by_cases hn : n ≤ 920
    · have hc : (renderedState n).clock = (n : ℚ) / 10 := by
        rw [renderedState_eq, if_pos hn]
      rw [hc] at h
      have h920 : (920 : ℚ) ≤ (n : ℚ) := by
        rw [le_div_iff₀ (by norm_num : (0 : ℚ) < 10)] at h
        linarith
      have hn920 : 920 ≤ n := by exact_mod_cast h920
      have he : n = 920 := le_antisymm hn hn920
      subst he
      rw [renderedState_eq, if_neg (by omega)]
    · rw [renderedState_eq, if_neg (by omega)]

/-- Witness for the amended C1 theorem at concrete inputs. -/
theorem sceneWindows_cover_amended_wit :
    activeScenes 1 = 1 ∧ activeScenes 90 = 0 ∧ activeScenes (-1) = 0 ∧
    (renderedState (920 + 1)).status = .finished :=
  ⟨sceneWindows_cover_amended.1 1 (by norm_num) (by norm_num),
   sceneWindows_cover_amended.2.1 90 (by norm_num),
   sceneWindows_cover_amended.2.2.1 (-1) (by norm_num),
   sceneWindows_cover_amended.2.2.2 920 (by rw [renderedState_eq]; norm_num)⟩

/-- Claim C2: every trigger offset of the ending timeline (the two glitch
offsets and all text-reveal offsets) fires at exactly one rendered state
of a run started by `startEnding` — its action is invoked exactly once per
start, regardless of how the 0.1-second cadence is scheduled in real time,
because each evaluation of the effect sees one distinct sampled clock. -/
theorem triggers_fire_exactly_once :
    ∀ t ∈ glitchTimes ++ textRevealTimes, ∃! n : ℕ, firedAt n t = true := by
  intro t ht
  rw [trigger_table_decis] at ht
  rcases List.mem_map.1 ht with ⟨m, hmem, ht2⟩
  subst ht2
  have hm : m ≤ 920 := triggerDecis_le m hmem
  refine ⟨m, ?_, ?_⟩
  · show firedAt m ((m : ℚ) / 10) = true
    rw [firedAt_eq m m hm]
    simp
  · intro n hn
    have hn2 : firedAt n ((m : ℚ) / 10) = true := hn
    rw [firedAt_eq n m hm] at hn2
    simpa using hn2

/-- Witness for C2 at the first glitch offset 0.5. -/
theorem triggers_fire_exactly_once_wit :
    ((0.5 : ℚ) ∈ glitchTimes ++ textRevealTimes) ∧
    ∃! n : ℕ, firedAt n (0.5 : ℚ) = true :=
  ⟨by simp [glitchTimes], triggers_fire_exactly_once 0.5 (by simp [glitchTimes])⟩

/-- Claim C3: a trigger fires on a tick exactly when the sampled clock is
within half a tick-period (0.05 s) of its offset — a tolerance window, not
exact equality; in particular some clock values different from the offset
also fire it. -/
theorem trigger_tolerance_condition :
    (∀ c : ℚ, glitchTrigger1 c = true ↔ |c - 0.5| < 0.05) ∧
    (∀ c : ℚ, glitchTrigger2 c = true ↔ |c - 4.0| < 0.05) ∧
    (∀ c : ℚ, textRevealTrigger c = true ↔ ∃ t ∈ textRevealTimes, |c - t| < 0.05) ∧
    (∃ c : ℚ, c ≠ 0.5 ∧ glitchTrigger1 c = true) := by
  refine ⟨?_, ?_, ?_, ?_⟩
  · intro c
    simp [glitchTrigger1, fireCheck]
  · intro c
    simp [glitchTrigger2, fireCheck]
  · intro c
    simp [textRevealTrigger, fireCheck]
  · refine ⟨0.52, by norm_num, ?_⟩
    simp only [glitchTrigger1, fireCheck, decide_eq_true_eq, abs_sub_lt_iff]
    norm_num

/-- Claim C4: once the clock first reaches 92 the run transitions to the
terminal `finished` state (and is finished exactly from that point on),
the state then stays frozen at clock 92 (the interval is cancelled, the
clock ceases advancing), and no trigger fires at any later rendered
state. -/
theorem finish_terminal_behavior :
    (∀ n : ℕ, (renderedState n).status = .finished ↔ 921 ≤ n) ∧
    (∀ n : ℕ, 921 ≤ n → renderedState n = { status := .finished, clock := 92 }) ∧
    (∀ (n : ℕ) (t : ℚ), 921 ≤ n → firedAt n t = false) := by
  have hfin : ∀ n : ℕ, 921 ≤ n →
      renderedState n = { status := .finished, clock := 92 } := by
    intro n h
    rw [renderedState_eq, if_neg (by omega)]
  refine ⟨?_, hfin, ?_⟩
  · intro n
    constructor
    · intro h
      by_contra hlt
      push_neg at hlt
      rw [renderedState_eq, if_pos (by omega : n ≤ 920)] at h
      simp at h
    · intro h
      rw [hfin n h]
  · intro n t h
    rw [firedAt, hfin n h]
    simp

/-- Witness for C4 at the first finished index 921. -/
theorem finish_terminal_behavior_wit :
    renderedState 921 = { status := .finished, clock := 92 } ∧
    firedAt 921 0 = false :=
  ⟨finish_terminal_behavior.2.1 921 (by decide),
   finish_terminal_behavior.2.2 921 0 (by decide)⟩

/-- Claim C5, counterexample: invoking `startEnding` on a playing state
with clock 5 yields the playing state with clock 0 — it resets the clock,
so it is not a silent no-op while a run is playing. -/
theorem startEnding_not_noop_cex :
    startEnding { status := .playing, clock := 5 } = { status := .playing, clock := 0 } ∧
    ({ status := .playing, clock := 0 } : EState) ≠ { status := .playing, clock := 5 } := by
  refine ⟨rfl, ?_⟩
  intro h
  have h5 : (0 : ℚ) = 5 := congrArg EState.clock h
  norm_num at h5

/-- Claim C5, amended: `startEnding` unconditionally restarts the run —
from any state, also a playing one, it produces the playing state with
clock 0 (it resets the clock rather than being a no-op) — and the UI
renders the start button that invokes it only while the status is idle, so
a second start cannot be triggered from the interface during a run. -/
theorem startEnding_amended :
    (∀ s : EState, startEnding s = { status := .playing, clock := 0 }) ∧
    (∀ s : EState, startButtonVisible s = true ↔ s.status = .idle) := by
  constructor
  · intro s
    rfl
  · intro s
    simp [startButtonVisible]
